import Mathlib

/-!
Verification of the query/pagination/cache controller of the
live-data-dashboard client (`src/static/js/script.js`).

The JS module keeps three module-level state variables (`currentPage`,
`currentMode`, `lastQueryParams`, lines 26-28) plus a credits cache
(`castCache`, line 29), and wires them to event handlers.  We embed the
state variables as a `QueryState` structure, the handlers as pure state
transformers, and the asynchronous fetches as explicit `FetchResult`
arguments (the response the awaited fetch/json pair would have produced,
or a network/parse failure).  DOM effects that the claims talk about
(the movie grid contents and the visibility of the "show more" button)
are carried in a `UIState` record; purely visual effects (scrolling,
clearing the filter form controls) are outside the modelled state.
-/

namespace Dashboard

/-- A JavaScript value stored in a query-params object: the source only
ever stores strings (form control values) and numbers (page counters). -/
inductive JVal where
  | str (s : String)
  | num (n : Int)
deriving DecidableEq, Repr

/-- A query-params object, as an insertion-ordered association list, the
order in which JS object literals and spreads enumerate their keys. -/
abbrev Params := List (String × JVal)

/-- The module-level state variables of `script.js` lines 26-28:
`currentPage`, `currentMode` and `lastQueryParams`. -/
structure QueryState where
  currentPage : Nat
  currentMode : String
  lastQueryParams : Params
deriving DecidableEq, Repr

/-- The initial values of the state variables (lines 26-28):
`currentPage = 1`, `currentMode = "default"`, `lastQueryParams = {}`. -/
def initState : QueryState := ⟨1, "default", []⟩

/-- Outcome of one awaited `fetch` + `res.json()` pair: either the parsed
body, or a network/parse failure (the rejection caught by the handler). -/
inductive FetchResult (α : Type) where
  | ok (data : α)
  | fail
deriving DecidableEq, Repr

/-- An item summary from the listing endpoint.  The claims never inspect
card contents, so only the fields identifying a card are carried. -/
structure MovieSummary where
  id : Int
  title : String
deriving DecidableEq, Repr

/-- Body of a listing response: `{ results: [...], total_pages: n }`.
Either field may be absent (`data.results || []`, `data.total_pages || 1`
in the source guard for that). -/
structure ListingResponse where
  results : Option (List MovieSummary)
  total_pages : Option Int
deriving DecidableEq, Repr

/-- The DOM state the claims observe: the movie grid contents and whether
the "show more" button is displayed. -/
structure UIState where
  grid : List MovieSummary
  showMoreVisible : Bool
deriving DecidableEq, Repr

/-- `data.total_pages || 1` (line 175): absent and falsy (`0`) both give
the default `1`; the endpoint returns `total_pages` as a number. -/
def jsOrOne : Option Int → Int
  | none => 1
  | some n => if n = 0 then 1 else n

/-- `params.page || 1` (line 176).  Every call site passes `page` as a
number (the literal `1` or `currentPage`), so only the numeric case
arises; absent and `0` are falsy and give the default `1`. -/
def pageOf (params : Params) : Int :=
  match params.lookup "page" with
  | some (JVal.num n) => if n = 0 then 1 else n
  | _ => 1

/-- `loadMovies(params, options)` (lines 160-184) with the awaited
response made explicit.  On success the grid is replaced or appended to
(`renderMovies` / `appendMovies`, lines 187-242) and the "show more"
button is shown iff `(params.page || 1) < (data.total_pages || 1)`
(lines 174-180).  On a network/parse failure the `catch` only logs
(lines 181-183), leaving the UI untouched. -/
def loadMovies (params : Params) (append : Bool)
    (resp : FetchResult ListingResponse) (ui : UIState) : UIState :=
  match resp with
  | FetchResult.fail => ui
  | FetchResult.ok data =>
    let movies := data.results.getD []
    { grid := if append then ui.grid ++ movies else movies,
      showMoreVisible :=
        if pageOf params < jsOrOne data.total_pages then true else false }

/-- The `showMoreBtn` click handler (lines 102-106): increment
`currentPage`, then snapshot `{ ...lastQueryParams, page: currentPage }`.
`lastQueryParams` never contains a `page` key (all three writers store it
without one), so the spread appends `page` as the last key.  Returns the
new state and the params object handed to `loadMovies`. -/
def nextPage (st : QueryState) : QueryState × Params :=
  let newPage := st.currentPage + 1
  ({ st with currentPage := newPage },
   st.lastQueryParams ++ [("page", JVal.num (newPage : Nat))])

/-- A whole "show more" click (lines 102-106): `nextPage` followed by
`loadMovies(params, { append: true })` with the given fetch outcome. -/
def showMoreClick (st : QueryState) (resp : FetchResult ListingResponse)
    (ui : UIState) : QueryState × UIState :=
  let (st', params) := nextPage st
  (st', loadMovies params true resp ui)

/-- Errors the spec's Query State reports synchronously. -/
inductive QueryError where
  | invalidInput
  | invalidState
deriving DecidableEq, Repr

/-- `searchInput.value.trim()` (line 84): strip whitespace from both ends
of the string.  (JS trims the Unicode whitespace class; the form inputs
at issue only carry ASCII whitespace, covered by `Char.isWhitespace`.) -/
def jsTrim (s : String) : String :=
  String.mk
    (((s.data.dropWhile Char.isWhitespace).reverse.dropWhile
        Char.isWhitespace).reverse)

/-- `doSearch` (lines 83-99) with the two form control values made
explicit: `text` is `searchInput.value` and `stv` is `searchType.value`.
`if (!q) return;` (line 85) leaves the state untouched on an
empty-after-trim query; we surface that early return as `invalidInput`.
Otherwise mode becomes `"search"`, the page resets to 1, the params
`{ query, search_type }` are stored, and `loadMovies` is called with
them plus `page: 1`.  (The handler also blanks the filter form controls,
a purely visual effect outside the modelled state.) -/
def doSearch (text stv : String) (st : QueryState) :
    QueryState × Except QueryError Params :=
  let q := jsTrim text
  if q = "" then (st, Except.error QueryError.invalidInput)
  else
    let stored : Params := [("query", JVal.str q), ("search_type", JVal.str stv)]
    (⟨1, "search", stored⟩, Except.ok (stored ++ [("page", JVal.num 1)]))

/-- The values of the five filter form controls read by the `applyBtn`
handler (lines 46-59).  The score slider is a numeric range input, so its
value is modelled as the number `score` (its string value is
`toString score`, nonempty, hence truthy; `Number(value) > 0` is
`score > 0`). -/
structure FilterForm where
  genre : String
  year : String
  score : Nat
  runtimeMin : String
  runtimeMax : String
deriving DecidableEq, Repr

/-- The params object built by the `applyBtn` handler (lines 47-53):
each key is added only when its control holds a truthy (nonempty) value,
and `min_score` additionally requires `Number(value) > 0`. -/
def applyFilterParams (f : FilterForm) : Params :=
  (if f.genre ≠ "" then [("genre", JVal.str f.genre)] else []) ++
  (if f.year ≠ "" then [("year", JVal.str f.year)] else []) ++
  (if f.score > 0 then [("min_score", JVal.str (toString f.score))] else []) ++
  (if f.runtimeMin ≠ "" then [("runtime_min", JVal.str f.runtimeMin)] else []) ++
  (if f.runtimeMax ≠ "" then [("runtime_max", JVal.str f.runtimeMax)] else [])

/-- The `applyBtn` click handler (lines 46-59): build the params, set
mode `"filtered"`, reset the page to 1, store the params, and call
`loadMovies({ ...params, page: 1 })`. -/
def applyFilters (f : FilterForm) (_st : QueryState) : QueryState × Params :=
  let params := applyFilterParams f
  (⟨1, "filtered", params⟩, params ++ [("page", JVal.num 1)])

/-- A cast entry from the credits endpoint:
`{name, character, profile_path?}`. -/
structure CastMember where
  name : String
  character : String
  profile_path : Option String
deriving DecidableEq, Repr

/-- A crew entry from the credits endpoint: `{name, job, profile_path?}`. -/
structure CrewMember where
  name : String
  job : String
  profile_path : Option String
deriving DecidableEq, Repr

/-- Body of a credits response: `{ cast: [...], crew: [...] }`; either
list may be absent (`data.cast || []`, `data.crew || []`). -/
structure CreditData where
  cast : Option (List CastMember)
  crew : Option (List CrewMember)
deriving DecidableEq, Repr

/-- `castCache` (line 29), a `Map` from movie id to the parsed credits
body, as an insertion-ordered association list. -/
abbrev CastCache := List (String × CreditData)

/-- `castCache.get(movieId)`: `none` models `undefined`. -/
def cacheGet (c : CastCache) (k : String) : Option CreditData :=
  c.lookup k

/-- `castCache.set(movieId, data)`: JS `Map.set` updates an existing key
in place (keeping its position) and otherwise appends. -/
def cacheSet (c : CastCache) (k : String) (v : CreditData) : CastCache :=
  if (c.lookup k).isSome then
    c.map (fun p => if p.1 = k then (k, v) else p)
  else c ++ [(k, v)]

/-- The cache-or-fetch block of `openCastModal` (lines 253-259):
`let data = castCache.get(movieId); if (!data) { fetch; json; set }`.
Cached values are parsed JSON objects, hence truthy, so `!data` is
exactly a cache miss.  Returns the cache afterwards, the block's outcome
(the credits body, or the failure that propagates to the enclosing
`catch`), and whether the network was contacted.  On failure the `set`
on line 258 is never reached, so nothing is cached. -/
def getCredits (cache : CastCache) (movieId : String)
    (resp : FetchResult CreditData) :
    CastCache × Except Unit CreditData × Bool :=
  match cacheGet cache movieId with
  | some data => (cache, Except.ok data, false)
  | none =>
    match resp with
    | FetchResult.ok data => (cacheSet cache movieId data, Except.ok data, true)
    | FetchResult.fail => (cache, Except.error (), true)

/-- The modal contents derived from a credits body (lines 261-263):
`cast = (data.cast || []).slice(0, 12)` and
`directors = (data.crew || []).filter(c => c.job === "Director")`. -/
structure ModalView where
  cast : List CastMember
  directors : List CrewMember
deriving DecidableEq, Repr

/-- Lines 261-263 of `openCastModal`. -/
def buildModalView (data : CreditData) : ModalView :=
  { cast := (data.cast.getD []).take 12,
    directors := (data.crew.getD []).filter (fun c => c.job = "Director") }

/-- String value of a params entry, as `URLSearchParams` stringifies it
(numbers via decimal `toString`). -/
def jvalToString : JVal → String
  | JVal.str s => s
  | JVal.num n => toString n

/-- UTF-8 bytes of a code point, for percent-encoding. -/
def utf8Bytes (n : Nat) : List Nat :=
  if n < 0x80 then [n]
  else if n < 0x800 then [0xC0 + n / 64, 0x80 + n % 64]
  else if n < 0x10000 then
    [0xE0 + n / 4096, 0x80 + n / 64 % 64, 0x80 + n % 64]
  else
    [0xF0 + n / 262144, 0x80 + n / 4096 % 64, 0x80 + n / 64 % 64,
     0x80 + n % 64]

/-- Uppercase hex digit. -/
def hexDigit (n : Nat) : Char :=
  if n < 10 then Char.ofNat (48 + n) else Char.ofNat (55 + n)

/-- `%XX` escape of one byte. -/
def byteEscape (b : Nat) : String :=
  String.mk ['%', hexDigit (b / 16 % 16), hexDigit (b % 16)]

/-- One character under `application/x-www-form-urlencoded`, the encoding
`URLSearchParams.toString()` uses: alphanumerics and `*-._` kept, space
becomes `+`, everything else percent-escapes its UTF-8 bytes. -/
def formChar (c : Char) : String :=
  if c.isAlphanum ∨ c = '*' ∨ c = '-' ∨ c = '.' ∨ c = '_' then
    String.singleton c
  else if c = ' ' then "+"
  else String.join ((utf8Bytes c.toNat).map byteEscape)

/-- Form-encode a whole string. -/
def formEncode (s : String) : String :=
  String.join (s.toList.map formChar)

/-- `new URLSearchParams(params).toString()` (line 161): `k=v` pairs in
object insertion order, joined with `&`, keys and values form-encoded. -/
def serializeParams (ps : Params) : String :=
  String.intercalate "&"
    (ps.map (fun p => formEncode p.1 ++ "=" ++ formEncode (jvalToString p.2)))

/-- One character under `escapeHtml`'s replacement table (lines 292-298);
the regex `/[&<>"']/g` matches single characters, so the global replace
is a character-wise substitution. -/
def escChar (c : Char) : List Char :=
  if c = '&' then "&amp;".toList
  else if c = '<' then "&lt;".toList
  else if c = '>' then "&gt;".toList
  else if c = '"' then "&quot;".toList
  else if c = '\'' then "&#39;".toList
  else [c]

/-- `escapeHtml` (lines 289-300).  `none` stands for a `null`/`undefined`
argument; `if (!str) return ""` also catches the empty string, the only
falsy string. -/
def escapeHtml : Option String → String
  | none => ""
  | some s => if s = "" then "" else String.mk (s.toList.flatMap escChar)

/-- Modelled from the spec: "`nextPage()`: increments stored page counter
by 1; returns the full parameter snapshot ... Fails with InvalidState if
called before any query has been issued."  The source keeps no
has-a-query-been-issued flag, so the spec's precondition is carried as an
explicit `queryIssued` argument.  Used only to compare the spec's demand
against the source's `showMoreBtn` handler. -/
def nextPageSpec (queryIssued : Bool) (st : QueryState) :
    Except QueryError (QueryState × Params) :=
  if queryIssued then Except.ok (nextPage st)
  else Except.error QueryError.invalidState

/-! Helper lemmas. -/

/-- Looking a key up in an appended association list skips a prefix in
which the key is absent. -/
theorem lookup_append_of_none {β : Type} (a : String) (l₁ l₂ : List (String × β))
    (h : l₁.lookup a = none) : (l₁ ++ l₂).lookup a = l₂.lookup a := by
  induction l₁ with
  | nil => rfl
  | cons p l ih =>
    obtain ⟨k, v⟩ := p
    by_cases hk : (a == k) = true
    · simp [List.lookup, hk] at h
    · simp only [Bool.not_eq_true] at hk
      simp only [List.cons_append, List.lookup, hk] at h ⊢
      exact ih h

/-- `Nat.toDigitsCore` only ever grows its accumulator. -/
theorem toDigitsCore_length_le (b : Nat) (fuel : Nat) :
    ∀ (n : Nat) (ds : List Char),
      ds.length ≤ (Nat.toDigitsCore b fuel n ds).length := by
  induction fuel with
  | zero => intro n ds; exact Nat.le_refl _
  | succ fuel ih =>
    intro n ds
    rw [Nat.toDigitsCore]
    split
    · exact Nat.le_succ _
    · have h := ih (n / b) ((n % b).digitChar :: ds)
      simp only [List.length_cons] at h
      exact Nat.le_trans (Nat.le_succ _) h

/-- The decimal rendering of a natural number is never the empty
string. -/
theorem natRepr_ne_empty (n : Nat) : toString n ≠ "" := by
  intro hcon
  have hlen : 0 < (Nat.toDigits 10 n).length := by
    rw [Nat.toDigits, Nat.toDigitsCore]
    split
    · exact Nat.succ_pos _
    · have h := toDigitsCore_length_le 10 n (n / 10) [Nat.digitChar (n % 10)]
      simp only [List.length_singleton] at h
      exact Nat.lt_of_lt_of_le (Nat.zero_lt_one) h
  have hdata : (Nat.toDigits 10 n) = [] := congrArg String.data hcon
  rw [hdata] at hlen
  exact Nat.lt_irrefl _ hlen

/-- `escapeHtml` on a present string is the character-wise substitution;
the explicit empty-string branch coincides with it. -/
theorem escapeHtml_some_eq (s : String) :
    escapeHtml (some s) = String.mk (s.data.flatMap escChar) := by
  by_cases h : s = ""
  · subst h; rfl
  · simp [escapeHtml, h, String.toList]

/-- The substitution leaves a string of non-special characters alone. -/
theorem flatMap_escChar_id (l : List Char)
    (h : ∀ c ∈ l, c ∉ (['&', '<', '>', '"', '\''] : List Char)) :
    l.flatMap escChar = l := by
  induction l with
  | nil => rfl
  | cons c l ih =>
    have hc := h c (List.mem_cons_self c l)
    simp only [List.mem_cons, List.not_mem_nil, or_false, not_or] at hc
    obtain ⟨h1, h2, h3, h4, h5⟩ := hc
    rw [List.flatMap_cons]
    rw [ih (fun x hx => h x (List.mem_cons_of_mem c hx))]
    simp [escChar, h1, h2, h3, h4, h5]

/-! Claim theorems. -/

/-- C1 (counterexample): the claim "after a failed load issued by
`nextPage()` the stored page counter is unchanged, so a subsequent
`nextPage()` returns the pre-failure page + 1" is false at the concrete
state page 1, mode `"filtered"`, stored params `{genre: "28"}`: the
handler increments the counter before the fetch and the `catch` never
rolls it back, so after the failure the counter reads 2 and the next
`nextPage()` snapshot carries page 3, not page 2. -/
theorem C1_counterexample :
    ¬ ((showMoreClick ⟨1, "filtered", [("genre", JVal.str "28")]⟩
          FetchResult.fail ⟨[], true⟩).1.currentPage = 1 ∧
       pageOf (nextPage (showMoreClick ⟨1, "filtered", [("genre", JVal.str "28")]⟩
          FetchResult.fail ⟨[], true⟩).1).2 = 2) := by decide

/-- C1 (amended): a "show more" step whose load fails leaves the UI, the
stored query params and the mode unchanged, but the stored page counter
has already been incremented by 1 (the increment on line 103 precedes the
fetch and is never rolled back), so a subsequent `nextPage()` returns the
pre-failure page + 2. -/
theorem C1_failed_load (st : QueryState) (ui : UIState) :
    (showMoreClick st FetchResult.fail ui).2 = ui ∧
    (showMoreClick st FetchResult.fail ui).1.lastQueryParams = st.lastQueryParams ∧
    (showMoreClick st FetchResult.fail ui).1.currentMode = st.currentMode ∧
    (showMoreClick st FetchResult.fail ui).1.currentPage = st.currentPage + 1 ∧
    (nextPage (showMoreClick st FetchResult.fail ui).1).1.currentPage
      = st.currentPage + 2 ∧
    (nextPage (showMoreClick st FetchResult.fail ui).1).2
      = st.lastQueryParams ++ [("page", JVal.num ((st.currentPage + 2 : Nat) : Int))] :=
  ⟨rfl, rfl, rfl, rfl, rfl, rfl⟩

/-- C2: a successful load shows the pagination affordance iff
`params.page < totalPages`, with `totalPages` defaulting to 1 when
`total_pages` is absent or falsy; in particular `total_pages: 1` with
`page: 1` hides it, `total_pages: 3` with `page: 1` shows it,
`page: 3` with `total_pages: 3` hides it, and an absent `total_pages`
hides it. -/
theorem C2_hasMore (params : Params) (data : ListingResponse) (ui : UIState)
    (append : Bool) :
    ((loadMovies params append (FetchResult.ok data) ui).showMoreVisible
        = decide (pageOf params < jsOrOne data.total_pages)) ∧
    jsOrOne none = 1 ∧ jsOrOne (some 0) = 1 ∧
    ((loadMovies [("page", JVal.num 1)] append
        (FetchResult.ok ⟨some [], some 1⟩) ui).showMoreVisible = false) ∧
    ((loadMovies [("page", JVal.num 1)] append
        (FetchResult.ok ⟨some [], some 3⟩) ui).showMoreVisible = true) ∧
    ((loadMovies [("page", JVal.num 3)] append
        (FetchResult.ok ⟨some [], some 3⟩) ui).showMoreVisible = false) ∧
    ((loadMovies [("page", JVal.num 1)] append
        (FetchResult.ok ⟨some [], none⟩) ui).showMoreVisible = false) := by
  refine ⟨?_, rfl, rfl, rfl, rfl, rfl, rfl⟩
  by_cases h : pageOf params < jsOrOne data.total_pages <;> simp [loadMovies, h]

/-- C3: a search whose text is empty after trimming leaves the Query
State unchanged and reports invalid input; a non-empty trimmed text sets
mode `"search"`, resets the page to 1, stores
`{query: text, search_type: searchType}`, and issues a load with those
params plus `page: 1`. -/
theorem C3_setSearch (text stv : String) (st : QueryState) :
    (jsTrim text = "" →
      doSearch text stv st = (st, Except.error QueryError.invalidInput)) ∧
    (jsTrim text ≠ "" →
      doSearch text stv st =
        (⟨1, "search",
          [("query", JVal.str (jsTrim text)), ("search_type", JVal.str stv)]⟩,
         Except.ok [("query", JVal.str (jsTrim text)),
           ("search_type", JVal.str stv), ("page", JVal.num 1)])) := by
  constructor <;> intro h <;> simp [doSearch, h]

/-- C3 (witness): `doSearch` at the concrete inputs `""` (fails, state
untouched) and `" hi "` (stores the trimmed query). -/
theorem C3_setSearch_witness :
    doSearch "" "title" initState = (initState, Except.error QueryError.invalidInput) ∧
    doSearch " hi " "title" initState =
      (⟨1, "search", [("query", JVal.str "hi"), ("search_type", JVal.str "title")]⟩,
       Except.ok [("query", JVal.str "hi"), ("search_type", JVal.str "title"),
         ("page", JVal.num 1)]) :=
  ⟨(C3_setSearch "" "title" initState).1 (by decide),
   (C3_setSearch " hi " "title" initState).2 (by decide)⟩

/-- C4: `nextPage()` increments the stored page counter by 1, leaves the
mode and the stored params unchanged, and returns the stored params with
`page = old page + 1` appended as the only new field. -/
theorem C4_nextPage (st : QueryState) :
    (nextPage st).1.currentPage = st.currentPage + 1 ∧
    (nextPage st).1.currentMode = st.currentMode ∧
    (nextPage st).1.lastQueryParams = st.lastQueryParams ∧
    (nextPage st).2
      = st.lastQueryParams ++ [("page", JVal.num ((st.currentPage + 1 : Nat) : Int))] :=
  ⟨rfl, rfl, rfl, rfl⟩

/-- C5 (counterexample): the claim "`nextPage()` fails with InvalidState
in the initial Query State" is false: the source's handler has no failure
path, and in the initial state it produces the successful step to page 2
with snapshot `{page: 2}` rather than the error the spec-modelled
`nextPageSpec` demands before any query has been issued. -/
theorem C5_counterexample :
    ¬ (nextPageSpec false initState = Except.ok (nextPage initState)) ∧
    nextPage initState = (⟨2, "default", []⟩, [("page", JVal.num 2)]) := by
  constructor
  · intro hcon
    simp [nextPageSpec] at hcon
  · decide

/-- C5 (amended): `nextPage()` never fails; called in the initial Query
State it increments the page counter from 1 to 2 and issues a load with
the snapshot `{page: 2}` of the empty stored params. -/
theorem C5_initial_state_advances :
    nextPage initState = (⟨2, "default", []⟩, [("page", JVal.num 2)]) ∧
    showMoreClick initState (FetchResult.ok ⟨some [], some 5⟩) ⟨[], false⟩
      = (⟨2, "default", []⟩, ⟨[], true⟩) := by decide

/-- C6: for an id not yet cached, the first call with a successful fetch
contacts the network and stores the record, and a second call for the
same id returns the stored record from the cache without contacting the
network, whatever a second fetch would have produced — one network call
in total. -/
theorem C6_credit_cache_hit (cache : CastCache) (id : String) (d : CreditData)
    (resp2 : FetchResult CreditData) (h : cacheGet cache id = none) :
    (getCredits cache id (FetchResult.ok d)).2.1 = Except.ok d ∧
    (getCredits cache id (FetchResult.ok d)).2.2 = true ∧
    (getCredits (getCredits cache id (FetchResult.ok d)).1 id resp2).1
      = (getCredits cache id (FetchResult.ok d)).1 ∧
    (getCredits (getCredits cache id (FetchResult.ok d)).1 id resp2).2.1
      = Except.ok d ∧
    (getCredits (getCredits cache id (FetchResult.ok d)).1 id resp2).2.2
      = false := by
  have h' : cache.lookup id = none := h
  have hset : cacheSet cache id d = cache ++ [(id, d)] := by
    simp [cacheSet, h']
  have h1 : getCredits cache id (FetchResult.ok d)
      = (cache ++ [(id, d)], Except.ok d, true) := by
    simp [getCredits, h, hset]
  have h2 : cacheGet (cache ++ [(id, d)]) id = some d := by
    show (cache ++ [(id, d)]).lookup id = some d
    rw [lookup_append_of_none id cache [(id, d)] h']
    simp [List.lookup]
  rw [h1]
  simp [getCredits, h2]

/-- C6 (witness): two sequential `getCredits` calls for id `"42"` on an
empty cache, the first fetch successful: one network call, and the second
call returns the stored record even though its fetch would have failed. -/
theorem C6_credit_cache_hit_witness :
    (getCredits [] "42" (FetchResult.ok ⟨some [], some []⟩)).2.2 = true ∧
    (getCredits (getCredits [] "42" (FetchResult.ok ⟨some [], some []⟩)).1 "42"
        FetchResult.fail).2.1 = Except.ok ⟨some [], some []⟩ ∧
    (getCredits (getCredits [] "42" (FetchResult.ok ⟨some [], some []⟩)).1 "42"
        FetchResult.fail).2.2 = false := by
  have h := C6_credit_cache_hit [] "42" ⟨some [], some []⟩ FetchResult.fail (by decide)
  exact ⟨h.2.1, h.2.2.2.1, h.2.2.2.2⟩

/-- C7: when the credits fetch for an uncached id fails, the failure
propagates out of the cache-or-fetch block, nothing is stored under the
id, and a later call for the same id fetches again and can succeed. -/
theorem C7_fetch_failure_not_cached (cache : CastCache) (id : String)
    (d : CreditData) (h : cacheGet cache id = none) :
    (getCredits cache id FetchResult.fail).1 = cache ∧
    (getCredits cache id FetchResult.fail).2.1 = Except.error () ∧
    (getCredits cache id FetchResult.fail).2.2 = true ∧
    (getCredits (getCredits cache id FetchResult.fail).1 id
        (FetchResult.ok d)).2.1 = Except.ok d ∧
    (getCredits (getCredits cache id FetchResult.fail).1 id
        (FetchResult.ok d)).2.2 = true := by
  simp [getCredits, h]

/-- C7 (witness): a failed fetch for id `"7"` on an empty cache leaves
the cache empty and errors, and the retry succeeds. -/
theorem C7_fetch_failure_not_cached_witness :
    (getCredits [] "7" FetchResult.fail).1 = [] ∧
    (getCredits [] "7" FetchResult.fail).2.1 = Except.error () ∧
    (getCredits (getCredits [] "7" FetchResult.fail).1 "7"
        (FetchResult.ok ⟨some [], some []⟩)).2.1 = Except.ok ⟨some [], some []⟩ := by
  have h := C7_fetch_failure_not_cached [] "7" ⟨some [], some []⟩ (by decide)
  exact ⟨h.1, h.2.1, h.2.2.2.1⟩

/-- C8: applying the filters `{genre: "28", min_score: "7"}` on page 1
serializes to exactly `genre=28&min_score=7&page=1` (the empty year and
runtime controls contribute no keys), a 2-page response shows the
pagination affordance, and in general every key the filter handler emits
has a nonempty value. -/
theorem C8_filter_query_string :
    serializeParams (applyFilters ⟨"28", "", 7, "", ""⟩ initState).2
      = "genre=28&min_score=7&page=1" ∧
    (applyFilters ⟨"28", "", 7, "", ""⟩ initState).2
      = [("genre", JVal.str "28"), ("min_score", JVal.str "7"),
         ("page", JVal.num 1)] ∧
    (loadMovies (applyFilters ⟨"28", "", 7, "", ""⟩ initState).2 false
        (FetchResult.ok ⟨some [], some 2⟩) ⟨[], false⟩).showMoreVisible = true ∧
    ∀ f : FilterForm, ∀ p ∈ applyFilterParams f, jvalToString p.2 ≠ "" := by
  refine ⟨by decide, by decide, by decide, ?_⟩
  intro f p hp
  simp only [applyFilterParams, List.mem_append] at hp
  rcases hp with ((((hp | hp) | hp) | hp) | hp) <;> split at hp <;>
    simp_all [jvalToString, natRepr_ne_empty]

/-- C8 (witness): the emitted `genre` entry of the concrete filter form
has a nonempty value. -/
theorem C8_filter_query_string_witness :
    jvalToString (("genre", JVal.str "28") : String × JVal).2 ≠ "" :=
  C8_filter_query_string.2.2.2 ⟨"28", "", 7, "", ""⟩ ("genre", JVal.str "28")
    (by decide)

/-- C9: the derived directors list is a sublist of the source crew list
(order preserved), every entry in it has job `"Director"`, every crew
entry with job `"Director"` appears in it, and its multiplicities match
the crew's. -/
theorem C9_directors (data : CreditData) :
    List.Sublist (buildModalView data).directors (data.crew.getD []) ∧
    (∀ c : CrewMember, c ∈ (buildModalView data).directors → c.job = "Director") ∧
    (∀ c : CrewMember, c ∈ data.crew.getD [] → c.job = "Director" →
        c ∈ (buildModalView data).directors) ∧
    (∀ c : CrewMember, List.count c (buildModalView data).directors
        = if c.job = "Director" then List.count c (data.crew.getD []) else 0) := by
  refine ⟨List.filter_sublist _, ?_, ?_, ?_⟩
  · intro c hc
    simp only [buildModalView, List.mem_filter, decide_eq_true_eq] at hc
    exact hc.2
  · intro c hc hj
    simp only [buildModalView, List.mem_filter, decide_eq_true_eq]
    exact ⟨hc, hj⟩
  · intro c
    by_cases hj : c.job = "Director"
    · rw [if_pos hj]
      exact List.count_filter (by simp [hj])
    · rw [if_neg hj]
      rw [List.count_eq_zero]
      intro hmem
      simp only [buildModalView, List.mem_filter, decide_eq_true_eq] at hmem
      exact hj hmem.2

/-- C9 (witness): on a concrete three-entry crew, the second director is
in the derived list and every derived entry has job `"Director"`. -/
theorem C9_directors_witness :
    (⟨"C", "Director", none⟩ : CrewMember)
      ∈ (buildModalView ⟨some [], some [⟨"A", "Director", none⟩,
          ⟨"B", "Writer", none⟩, ⟨"C", "Director", none⟩]⟩).directors ∧
    (⟨"A", "Director", none⟩ : CrewMember).job = "Director" := by
  have h := C9_directors ⟨some [], some [⟨"A", "Director", none⟩,
    ⟨"B", "Writer", none⟩, ⟨"C", "Director", none⟩]⟩
  exact ⟨h.2.2.1 ⟨"C", "Director", none⟩ (by decide) (by decide),
    h.2.1 ⟨"A", "Director", none⟩ (by decide)⟩

/-- C10: `escapeHtml` returns `""` on every falsy input, maps each of the
five special characters to its HTML entity, distributes over
concatenation, and leaves any string without special characters
unchanged — together: every occurrence of a special character is replaced
by its entity and every other character is kept. -/
theorem C10_escapeHtml :
    escapeHtml none = "" ∧ escapeHtml (some "") = "" ∧
    escapeHtml (some "&") = "&amp;" ∧ escapeHtml (some "<") = "&lt;" ∧
    escapeHtml (some ">") = "&gt;" ∧ escapeHtml (some "\"") = "&quot;" ∧
    escapeHtml (some "'") = "&#39;" ∧
    escapeHtml (some "a&b<c>\"d'") = "a&amp;b&lt;c&gt;&quot;d&#39;" ∧
    (∀ s t : String,
      escapeHtml (some (s ++ t)) = escapeHtml (some s) ++ escapeHtml (some t)) ∧
    (∀ s : String, (∀ c ∈ s.data, c ∉ (['&', '<', '>', '"', '\''] : List Char)) →
      escapeHtml (some s) = s) := by
  refine ⟨rfl, rfl, by decide, by decide, by decide, by decide, by decide,
    by decide, ?_, ?_⟩
  · intro s t
    rw [escapeHtml_some_eq, escapeHtml_some_eq, escapeHtml_some_eq]
    rw [String.data_append, List.flatMap_append]
    rfl
  · intro s hs
    rw [escapeHtml_some_eq, flatMap_escChar_id s.data hs]

/-- C10 (witness): a string with no special characters passes through
unchanged. -/
theorem C10_escapeHtml_witness : escapeHtml (some "plain") = "plain" :=
  C10_escapeHtml.2.2.2.2.2.2.2.2.2 "plain" (by decide)

end Dashboard
